import Mathlib

/-!
Verification of the `session-timeout` web component (`public/session-timeout.js`).

The development shallowly embeds the duration calculator `getDurationData` and
the parts of the `SessionTimeout` controller the properties refer to:
the `updateStrings` tick (transition detection and rescheduling guard),
`setEnd` / `setEndInner`, `updateKeepAlive`, and `setListeners`.

Conventions of the embedding:
* JavaScript millisecond timestamps are `Int`.
* A possibly-NaN timestamp (an unparsable date) is `Option Int`, `none` meaning NaN.
* `Math.floor(a / b)` on integers is `Int.fdiv a b`; the JavaScript `%` is only
  applied to non-negative operands in this code, where it agrees with `Int.emod`.
* Side effects that matter to the properties (dispatched `CustomEvent`s) are
  returned explicitly as lists of `Event` values.
-/

/-- The record returned by `getDurationData` (lines 19-28 and 136-149 of
`session-timeout.js`), with the source's field names. -/
structure DurationData where
  dynamicDuration : String
  diff : Int
  endWord : String
  invalid : Bool
  isPast : Bool
  prefixTxt : String
  startWord : String
  timeout : Int
deriving Repr, DecidableEq

/-- `multipliers` (line 40): seconds per time unit, largest first. -/
def multipliers : List Int := [31557600, 2629800, 604800, 86400, 3600, 60]

/-- `units` (line 47): unit names, in lockstep with `multipliers`. -/
def units : List String := ["year", "month", "week", "day", "hour", "minute"]

/-- The two lockstep arrays zipped into one association list. -/
def unitTable : List (Int × String) := multipliers.zip units

/-- The unit-selection loop (lines 114-126): scan the table in order and return
the first entry whose threshold is strictly exceeded by `diff`
(`_diff > multipliers[a]`), or `none` when no threshold is exceeded. -/
def findUnitLoop (diff : Int) : List (Int × String) → Option (Int × String)
  | [] => none
  | (m, u) :: rest => if m < diff then some (m, u) else findUnitLoop diff rest

/-- `_diff` as first assigned (line 54): `Math.floor((when - now) / 1000)`. -/
def signedDiff (now w : Int) : Int := Int.fdiv (w - now) 1000

/-- `_isPast = (_diff < 0)` (line 61). -/
def isPastOf (now w : Int) : Bool := decide (signedDiff now w < 0)

/-- `_diff` after the sign adjustment `if (_isPast) _diff *= -1` (line 102):
the absolute number of whole seconds used for rendering and rescheduling. -/
def absDiff (now w : Int) : Int :=
  if isPastOf now w then -signedDiff now w else signedDiff now w

/-- `next` as left by the unit-selection loop (lines 114-126), before the
minute-snap correction: when a unit matched, `extra = _diff % m` and
`next = extra > 0 && !_isPast ? extra : m`; when none matched, `next`
keeps its initial value `1` (line 68). -/
def nextBeforeSnap (isPast : Bool) (diff : Int) : Int :=
  match findUnitLoop diff unitTable with
  | some (m, _) => if 0 < diff % m ∧ isPast = false then diff % m else m
  | none => 1

/-- `humanVal` after `humanVal = Math.floor(humanVal)` (lines 110, 122, 128):
`Math.floor(_diff / m)` for a matched unit `m`, else `_diff` itself. -/
def humanValOf (diff : Int) : Int :=
  match findUnitLoop diff unitTable with
  | some (m, _) => Int.fdiv diff m
  | none => diff

/-- `unit` (lines 82 and 123): the matched unit name, defaulting to "second". -/
def unitOf (diff : Int) : String :=
  match findUnitLoop diff unitTable with
  | some (_, u) => u
  | none => "second"

/-- `next` after the minute-snap correction (lines 130-134):
`if (!_isPast && _diff !== 0 && next % 60 === 0) next = 1`. -/
def nextAfterSnap (isPast : Bool) (diff : Int) : Int :=
  if isPast = false ∧ diff ≠ 0 ∧ nextBeforeSnap isPast diff % 60 = 0 then 1
  else nextBeforeSnap isPast diff

/-- Embedding of `getDurationData` (lines 17-150). `whenT = none` models a NaN
`when` timestamp (line 18). The `startWord` field is `before` in the invalid
branch (line 26, the template literal) while `prefixTxt` is the empty string
(line 25). In the valid branch the fields are assembled exactly as on
lines 101-149. -/
def getDurationData (now : Int) (whenT : Option Int)
    (before after start endW : String) : DurationData :=
  match whenT with
  | none =>
      { dynamicDuration := "unknown"
        diff := 0
        endWord := ""
        invalid := true
        isPast := false
        prefixTxt := ""
        startWord := before
        timeout := 0 }
  | some w =>
      let isPast := isPastOf now w
      let diff := absDiff now w
      let humanVal := humanValOf diff
      { dynamicDuration :=
          if diff = 0 then "now"
          else toString humanVal ++ " " ++ unitOf diff ++
            (if humanVal ≠ 1 then "s" else "")
        diff := diff
        endWord := if isPast then " " ++ endW else ""
        invalid := false
        isPast := isPast
        prefixTxt := if isPast then after else before
        startWord := if diff = 0 then "" else if isPast then "" else " " ++ start
        timeout := nextAfterSnap isPast diff * 1000 }

/-- A `CustomEvent` dispatched by the component through `emitEvent` (lines
323-330); the `detail` payload defaults to `true`. -/
inductive Event where
  | sessionexpired (detail : Bool)
  | keepalive (detail : Bool)
deriving Repr, DecidableEq

/-- The transition-detection core of one `updateStrings` tick (lines 403-409):
given the stored `context.isPast` flag and the freshly computed result `tmp`,
return the new stored flag (`context.isPast = tmp.isPast`) and the events
dispatched: `sessionexpired` (default detail `true`) exactly when
`context.isPast === false && tmp.isPast === true`. -/
def updateStringsStep (ctxIsPast : Bool) (tmp : DurationData) : Bool × List Event :=
  if ctxIsPast = false ∧ tmp.isPast = true then (tmp.isPast, [Event.sessionexpired true])
  else (tmp.isPast, [])

/-- A sequence of `updateStrings` ticks applied to a stored `isPast` flag,
collecting all dispatched events in order. -/
def runTicks : Bool → List DurationData → Bool × List Event
  | c, [] => (c, [])
  | c, tmp :: rest =>
    let s := updateStringsStep c tmp
    let r := runTicks s.1 rest
    (r.1, s.2 ++ r.2)

/-- Number of session-expired notifications with payload `true` in a trace. -/
def countExpired (evs : List Event) : Nat :=
  (evs.filter (fun e => decide (e = Event.sessionexpired true))).length

/-- The rescheduling guard at the end of `updateStrings` (line 415): a next
tick is scheduled iff `tmp.invalid === false && tmp.diff < 28800`. -/
def schedulesNext (tmp : DurationData) : Bool :=
  decide (tmp.invalid = false) && decide (tmp.diff < 28800)

/-- Embedding of `setEndInner` (lines 332-345). The argument is always a
`Date` object in the source, so the `newEnd === 'invalid date'` string
comparison on line 333 can never be true and is omitted. `nowAtCheck` is the
`Date.now()` reading taken on line 339 and `prevEnd` the current `_end`;
the result is the `_end` value after the call (the warning branch on lines
339-341 returns without assigning). -/
def setEndInner (nowAtCheck : Int) (prevEnd : Option Int) (newEnd : Int) : Option Int :=
  if newEnd < nowAtCheck then prevEnd else some newEnd

/-- JavaScript's `String.prototype.trim()`: strip leading and trailing
whitespace. (Executable list-based model; Lean's own `String.trim` is
byte-indexed and does not reduce in the kernel.) -/
def jsTrim (s : String) : String :=
  { data := ((s.data.dropWhile Char.isWhitespace).reverse.dropWhile
      Char.isWhitespace).reverse }

/-- Embedding of `setEnd` (lines 347-356): after validating that the argument
is a non-empty string it calls `this.setEndInner(new Date())` — passing the
clock reading `nowAtCall` taken at the call site, not the parsed
`dateTimeStr`, which is discarded. `Except.error` models the thrown
`Error`. -/
def setEnd (nowAtCall nowAtCheck : Int) (dateTimeStr : String)
    (prevEnd : Option Int) : Except String (Option Int) :=
  if jsTrim dateTimeStr = "" then
    Except.error "SessionTimout.setEnd() expected only parameter to be a non-empty string"
  else
    Except.ok (setEndInner nowAtCheck prevEnd nowAtCall)

/-- `minKeepalive` (line 154). -/
def minKeepalive : Int := 30

/-- `watchableEvents` (line 152). -/
def watchableEvents : List String :=
  ["onfocus", "onblur", "keyup", "mousedown", "onscroll"]

/-- The keepalive-related state of a `SessionTimeout` instance:
`_lastInteraction`, `_lastKeep` (both `0` in the constructor), the sanitised
`_keepalive` threshold in seconds, and `_keepaliveCallback`, where `none`
models `null` and `some ok` a configured custom handler function, `ok`
recording whether that handler would succeed if it were actually invoked. -/
structure KeepState where
  lastInteraction : Int
  lastKeep : Int
  keepalive : Int
  keepaliveCallback : Option Bool
deriving Repr, DecidableEq

/-- Embedding of `updateKeepAlive` (lines 501-521). `now` is the `Date.now()`
reading stored into `_lastInteraction`. When the throttle window has elapsed
(`_lastInteraction - _lastKeep > keepalive * 1000`), `_lastKeep` is updated
and a notification is produced. In the custom-handler branch the source
invokes `this.keepaliveCallback()`; the class declares only a setter named
`keepaliveCallback` (lines 470-482) and no getter, so that property read
yields `undefined` and the call throws a `TypeError` before the configured
`_keepaliveCallback` function can run; the `catch` block (lines 511-518) then
nulls `_keepaliveCallback` and emits the default `keepalive` event. Hence the
`some` branch below disables the handler and emits the default event
regardless of whether the configured handler itself would have succeeded. -/
def updateKeepAlive (now : Int) (st : KeepState) : KeepState × List Event :=
  let st1 := { st with lastInteraction := now }
  if st.keepalive * 1000 < now - st.lastKeep then
    let st2 := { st1 with lastKeep := now }
    match st2.keepaliveCallback with
    | none => (st2, [Event.keepalive true])
    | some _ => ({ st2 with keepaliveCallback := none }, [Event.keepalive true])
  else (st1, [])

/-- Result of `setListeners` (lines 543-552) for the keepalive machinery. -/
structure ListenerResult where
  state : KeepState
  setupEvents : List Event
  keepaliveListenerRegistered : Bool
deriving Repr, DecidableEq

/-- Embedding of `setListeners` (lines 543-552). When
`this.keepalive > minKeepalive`, the loop executes
`window.addEventListener(event, this.updateKeepAlive())` for each watchable
event name: this *invokes* `updateKeepAlive` immediately (emitting whatever
those calls emit, at the single clock reading `now`) and registers its return
value, `undefined`, so no callable keepalive listener is installed for later
interactions. When `keepalive ≤ minKeepalive` the loop is skipped entirely. -/
def setListeners (now : Int) (st : KeepState) : ListenerResult :=
  if minKeepalive < st.keepalive then
    let r := watchableEvents.foldl
      (fun (acc : KeepState × List Event) _ =>
        let s := updateKeepAlive now acc.1
        (s.1, acc.2 ++ s.2))
      (st, [])
    { state := r.1, setupEvents := r.2, keepaliveListenerRegistered := false }
  else
    { state := st, setupEvents := [], keepaliveListenerRegistered := false }

/-- Recorded user interactions after `setListeners`: each interaction (at the
given clock reading) invokes the registered keepalive listener if a callable
one was registered, and does nothing otherwise. -/
def processInteractions (registered : Bool) (st : KeepState) (ts : List Int) :
    KeepState × List Event :=
  if registered then
    ts.foldl
      (fun (acc : KeepState × List Event) t =>
        let s := updateKeepAlive t acc.1
        (s.1, acc.2 ++ s.2))
      (st, [])
  else (st, [])

/-- A controller state with keepalive threshold 20 seconds (below the 30
floor) and no custom handler, used as a concrete witness input. -/
def kaStateBelowFloor : KeepState :=
  { lastInteraction := 0, lastKeep := 0, keepalive := 20, keepaliveCallback := none }

/-- A controller state with keepalive threshold 60 seconds and a configured
custom handler that would succeed, used as a concrete witness input. -/
def kaStateWithHandler : KeepState :=
  { lastInteraction := 0, lastKeep := 0, keepalive := 60, keepaliveCallback := some true }

/-! ## Spec-side definitions

These restate, in the claims' own words, the rules the claims say the code
follows. They are written from the claim text and compared with the
source-derived definitions above by theorem. -/

/-- C3's unit-selection rule as the claim words it: evaluate the thresholds
31557600 (year), 2629800 (month), 604800 (week), 86400 (day), 3600 (hour),
60 (minute) in that order and pick the first threshold strictly exceeded by
`diff`; if none is, the unit is "second" (threshold 1, so the value is `diff`
itself). -/
def claimUnitChoice (diff : Int) : Int × String :=
  if 31557600 < diff then (31557600, "year")
  else if 2629800 < diff then (2629800, "month")
  else if 604800 < diff then (604800, "week")
  else if 86400 < diff then (86400, "day")
  else if 3600 < diff then (3600, "hour")
  else if 60 < diff then (60, "minute")
  else (1, "second")

/-- The displayed duration text C3 implies for a non-zero diff: the value
floor(diff / threshold) followed by the selected unit name, pluralised
exactly as the code renders it (trailing "s" when the value is not 1). -/
def claimUnitString (diff : Int) : String :=
  toString (Int.fdiv diff (claimUnitChoice diff).1) ++ " " ++
    (claimUnitChoice diff).2 ++
    (if Int.fdiv diff (claimUnitChoice diff).1 ≠ 1 then "s" else "")

/-- The reschedule seconds as C2's words define them: with
`extra = diff % threshold`, reschedule after `extra` seconds when in the
future and `extra > 0`, otherwise after the full threshold (hence always the
full threshold when past); then, if in the future with `diff ≠ 0` and the
chosen reschedule-seconds an exact multiple of 60, force 1 second. -/
def claimRescheduleSeconds (isPast : Bool) (diff threshold : Int) : Int :=
  let extra := diff % threshold
  let base := if isPast = false ∧ 0 < extra then extra else threshold
  if isPast = false ∧ diff ≠ 0 ∧ base % 60 = 0 then 1 else base

/-! ## Helper lemmas -/

/-- The source's first-match loop over the zipped threshold table computes
exactly the claim's ordered strict-threshold rule, matching some unit iff
`60 < diff`. -/
theorem findUnitLoop_unitTable (diff : Int) :
    findUnitLoop diff unitTable =
      if 60 < diff then some (claimUnitChoice diff) else none := by
  have h : unitTable = [(31557600, "year"), (2629800, "month"), (604800, "week"),
      (86400, "day"), (3600, "hour"), (60, "minute")] := rfl
  rw [h]
  simp only [findUnitLoop, claimUnitChoice]
  split_ifs <;> first | rfl | omega

/-- The code's `humanVal` equals the claim's floor(diff / threshold). -/
theorem humanValOf_eq_claim (diff : Int) :
    humanValOf diff = Int.fdiv diff (claimUnitChoice diff).1 := by
  unfold humanValOf
  rw [findUnitLoop_unitTable]
  split_ifs with h
  · rfl
  · show diff = Int.fdiv diff (claimUnitChoice diff).1
    unfold claimUnitChoice
    split_ifs <;> try omega
    show diff = Int.fdiv diff 1
    rw [Int.fdiv_eq_ediv _ (by omega)]
    omega

/-- The code's selected unit name equals the claim's selected unit name. -/
theorem unitOf_eq_claim (diff : Int) :
    unitOf diff = (claimUnitChoice diff).2 := by
  unfold unitOf
  rw [findUnitLoop_unitTable]
  split_ifs with h
  · rfl
  · unfold claimUnitChoice
    split_ifs <;> first | omega | rfl

/-- When a unit threshold matched (`60 < diff`), the code's post-snap `next`
equals the claim's reschedule-seconds formula. -/
theorem nextAfterSnap_eq_claim (isPast : Bool) (diff : Int) (h : 60 < diff) :
    nextAfterSnap isPast diff =
      claimRescheduleSeconds isPast diff (claimUnitChoice diff).1 := by
  unfold nextAfterSnap nextBeforeSnap claimRescheduleSeconds
  rw [findUnitLoop_unitTable, if_pos h]
  rcases hcu : claimUnitChoice diff with ⟨m, u⟩
  simp only []
  have hb : (if 0 < diff % m ∧ isPast = false then diff % m else m) =
      (if isPast = false ∧ 0 < diff % m then diff % m else m) := by
    split_ifs <;> first | rfl | tauto
  rw [hb]

/-- The loop's `next` is always at least 1 second. -/
theorem one_le_nextBeforeSnap (isPast : Bool) (diff : Int) :
    1 ≤ nextBeforeSnap isPast diff := by
  unfold nextBeforeSnap
  rw [findUnitLoop_unitTable]
  split_ifs with h
  · unfold claimUnitChoice
    split_ifs <;> simp only [] <;> split_ifs <;> omega
  · show (1 : Int) ≤ 1
    omega

/-- The post-snap `next` is always at least 1 second. -/
theorem one_le_nextAfterSnap (isPast : Bool) (diff : Int) :
    1 ≤ nextAfterSnap isPast diff := by
  unfold nextAfterSnap
  split_ifs with h
  · omega
  · exact one_le_nextBeforeSnap isPast diff

/-- Unfolding of `getDurationData` on a valid (non-NaN) timestamp. -/
theorem getDurationData_some (now w : Int) (b a s e : String) :
    getDurationData now (some w) b a s e =
      { dynamicDuration :=
          if absDiff now w = 0 then "now"
          else toString (humanValOf (absDiff now w)) ++ " " ++ unitOf (absDiff now w) ++
            (if humanValOf (absDiff now w) ≠ 1 then "s" else "")
        diff := absDiff now w
        endWord := if isPastOf now w then " " ++ e else ""
        invalid := false
        isPast := isPastOf now w
        prefixTxt := if isPastOf now w then a else b
        startWord :=
          if absDiff now w = 0 then "" else if isPastOf now w then "" else " " ++ s
        timeout := nextAfterSnap (isPastOf now w) (absDiff now w) * 1000 } := rfl

/-! ## Claims -/

/-- Claim C1, counterexample: the claim states that `target <= now` gives
`isPast = true` with `diffSeconds = floor((now - target) / 1000)`. It fails
at `now = target = 0`, where the code computes `isPast = false`, and at
`now = 1500, target = 1000`, where the code computes `diffSeconds = 1` while
`floor((now - target) / 1000) = 0`. -/
theorem past_claim_counterexample :
    ¬ ((getDurationData 0 (some 0) "b" "a" "s" "e").isPast = true ∧
       (getDurationData 0 (some 0) "b" "a" "s" "e").diff = Int.fdiv (0 - 0) 1000) ∧
    ¬ ((getDurationData 1500 (some 1000) "b" "a" "s" "e").isPast = true ∧
       (getDurationData 1500 (some 1000) "b" "a" "s" "e").diff =
         Int.fdiv (1500 - 1000) 1000) := by
  decide

/-- Claim C1, amended: for integer timestamps with `target < now` strictly,
`getDurationData` returns `isPast = true` and `diffSeconds` equal to the
*ceiling* of `(now - target) / 1000` (computed here as
`(now - target + 999) / 1000` with floor division), a non-negative value;
at `target = now` the result has `isPast = false` and `diffSeconds = 0`. -/
theorem past_amended (now w : Int) (h : w < now) (b a s e : String) :
    (getDurationData now (some w) b a s e).isPast = true ∧
    (getDurationData now (some w) b a s e).diff = (now - w + 999) / 1000 ∧
    0 ≤ (getDurationData now (some w) b a s e).diff := by
  have hsd : signedDiff now w = (w - now) / 1000 := by
    unfold signedDiff
    rw [Int.fdiv_eq_ediv _ (by omega : (0:Int) ≤ 1000)]
  have hneg : signedDiff now w < 0 := by rw [hsd]; omega
  have hip : isPastOf now w = true := decide_eq_true hneg
  have habs : absDiff now w = -signedDiff now w := by
    unfold absDiff
    rw [hip]
    rfl
  refine ⟨?_, ?_, ?_⟩
  · show isPastOf now w = true
    exact hip
  · show absDiff now w = (now - w + 999) / 1000
    rw [habs, hsd]
    omega
  · show 0 ≤ absDiff now w
    rw [habs, hsd]
    omega

/-- Witness for the amended C1 at `now = 1500, target = 0`: there
`diffSeconds = ceil(1500 / 1000) = 2`. -/
theorem past_amended_witness :
    (0 : Int) < 1500 ∧
    ((getDurationData 1500 (some 0) "b" "a" "s" "e").isPast = true ∧
     (getDurationData 1500 (some 0) "b" "a" "s" "e").diff = (1500 - 0 + 999) / 1000 ∧
     0 ≤ (getDurationData 1500 (some 0) "b" "a" "s" "e").diff) :=
  ⟨by decide, past_amended 1500 0 (by decide) "b" "a" "s" "e"⟩

/-- Claim C6, counterexample: the claim states that the invalid result carries
`prefixLabel = beforeLabel` and empty start word; the code instead returns an
empty `prefixTxt` (line 25) and puts the before-label into `startWord`
(line 26). -/
theorem invalid_fields_counterexample :
    ¬ ((getDurationData 0 none "before" "after" "start" "ago").prefixTxt = "before" ∧
       (getDurationData 0 none "before" "after" "start" "ago").startWord = "") := by
  decide

/-- Claim C6, amended: for a NaN target, `getDurationData` returns
`invalid = true`, human text "unknown", `diff = 0`, `timeout = 0`,
an *empty* prefix label, the supplied before-label as the *start word*,
and an empty end word (the rendered message is unchanged, since the display
concatenates `prefixTxt` directly followed by `startWord`). -/
theorem invalid_fields_amended (now : Int) (b a s e : String) :
    getDurationData now none b a s e =
      { dynamicDuration := "unknown", diff := 0, endWord := "", invalid := true,
        isPast := false, prefixTxt := "", startWord := b, timeout := 0 } := rfl

/-- Claim C7: for every valid (non-NaN) target, the returned `timeout` is at
least 1000 milliseconds. -/
theorem timeout_at_least_1000 (now w : Int) (b a s e : String) :
    1000 ≤ (getDurationData now (some w) b a s e).timeout := by
  show 1000 ≤ nextAfterSnap (isPastOf now w) (absDiff now w) * 1000
  have h := one_le_nextAfterSnap (isPastOf now w) (absDiff now w)
  omega

/-- Claim C10: whenever a tick's computed result is valid and its absolute
diff is at least 28800 seconds (8 hours), the `updateStrings` guard schedules
no next recomputation — in either direction, future or past. -/
theorem no_reschedule_beyond_8_hours (now w : Int) (b a s e : String)
    (h : 28800 ≤ (getDurationData now (some w) b a s e).diff) :
    (getDurationData now (some w) b a s e).invalid = false ∧
    schedulesNext (getDurationData now (some w) b a s e) = false := by
  refine ⟨rfl, ?_⟩
  unfold schedulesNext
  rw [decide_eq_false (by omega : ¬ (getDurationData now (some w) b a s e).diff < 28800)]
  simp

/-- Witness for C10 at a target 10 hours in the *future* (`isPast = false`):
the freeze also applies forward in time. -/
theorem no_reschedule_beyond_8_hours_witness :
    28800 ≤ (getDurationData 0 (some 36000000) "b" "a" "s" "e").diff ∧
    ((getDurationData 0 (some 36000000) "b" "a" "s" "e").invalid = false ∧
     schedulesNext (getDurationData 0 (some 36000000) "b" "a" "s" "e") = false) ∧
    (getDurationData 0 (some 36000000) "b" "a" "s" "e").isPast = false :=
  ⟨by decide, no_reschedule_beyond_8_hours 0 36000000 "b" "a" "s" "e" (by decide),
    by decide⟩

/-- Claim C2: whenever a unit threshold matched (equivalently, the absolute
diff strictly exceeds 60, the smallest threshold), the returned `timeout`
equals the claim's reschedule rule — `extra = diff % threshold` seconds when
in the future with `extra > 0`, else the full threshold (always the full
threshold when past), with the minute-snap forcing 1 second when in the
future, `diff ≠ 0`, and the chosen seconds are a multiple of 60 — times
1000. -/
theorem timeout_matches_claim_reschedule (now w : Int) (b a s e : String)
    (h : 60 < (getDurationData now (some w) b a s e).diff) :
    (getDurationData now (some w) b a s e).timeout =
      claimRescheduleSeconds (getDurationData now (some w) b a s e).isPast
        (getDurationData now (some w) b a s e).diff
        (claimUnitChoice (getDurationData now (some w) b a s e).diff).1 * 1000 := by
  have hd : 60 < absDiff now w := h
  show nextAfterSnap (isPastOf now w) (absDiff now w) * 1000 =
    claimRescheduleSeconds (isPastOf now w) (absDiff now w)
      (claimUnitChoice (absDiff now w)).1 * 1000
  rw [nextAfterSnap_eq_claim _ _ hd]

/-- Witness for C2 at `diff = 3661` seconds in the future (just past one
hour): unit "hour", `extra = 61`, reschedule 61 seconds (61000 ms). -/
theorem timeout_matches_claim_reschedule_witness :
    60 < (getDurationData 0 (some 3661000) "b" "a" "s" "e").diff ∧
    (getDurationData 0 (some 3661000) "b" "a" "s" "e").timeout =
      claimRescheduleSeconds (getDurationData 0 (some 3661000) "b" "a" "s" "e").isPast
        (getDurationData 0 (some 3661000) "b" "a" "s" "e").diff
        (claimUnitChoice (getDurationData 0 (some 3661000) "b" "a" "s" "e").diff).1
        * 1000 :=
  ⟨by decide, timeout_matches_claim_reschedule 0 3661000 "b" "a" "s" "e" (by decide)⟩

/-- Claim C3: for a valid computation with non-zero absolute diff, the
displayed duration text is built from the first threshold (in the order
year, month, week, day, hour, minute) strictly exceeded by `diff` — value
`floor(diff / threshold)` — or "second" with value `diff` itself when no
threshold is exceeded. -/
theorem dynamicDuration_matches_claim_unit (now w : Int) (b a s e : String)
    (h : (getDurationData now (some w) b a s e).diff ≠ 0) :
    (getDurationData now (some w) b a s e).dynamicDuration =
      claimUnitString (getDurationData now (some w) b a s e).diff := by
  have hd : absDiff now w ≠ 0 := h
  show (if absDiff now w = 0 then "now"
        else toString (humanValOf (absDiff now w)) ++ " " ++ unitOf (absDiff now w) ++
          (if humanValOf (absDiff now w) ≠ 1 then "s" else "")) =
    claimUnitString (absDiff now w)
  unfold claimUnitString
  rw [if_neg hd, humanValOf_eq_claim, unitOf_eq_claim]

/-- Witness for C3 at `diff = 121` seconds in the future: first exceeded
threshold is 60 ("minute"), value `floor(121 / 60) = 2`, so "2 minutes". -/
theorem dynamicDuration_matches_claim_unit_witness :
    (getDurationData 0 (some 121000) "b" "a" "s" "e").diff ≠ 0 ∧
    (getDurationData 0 (some 121000) "b" "a" "s" "e").dynamicDuration =
      claimUnitString (getDurationData 0 (some 121000) "b" "a" "s" "e").diff :=
  ⟨by decide, dynamicDuration_matches_claim_unit 0 121000 "b" "a" "s" "e" (by decide)⟩

/-- Ticks that all compute a past result emit nothing once the stored flag is
already past. -/
theorem runTicks_true_all_past (ts : List DurationData)
    (h : ∀ t ∈ ts, t.isPast = true) : (runTicks true ts).2 = [] := by
  induction ts with
  | nil => rfl
  | cons t rest ih =>
    have ht := h t (List.mem_cons_self t rest)
    have hr : ∀ x ∈ rest, x.isPast = true := fun x hx => h x (List.mem_cons_of_mem t hx)
    simp [runTicks, updateStringsStep, ht, ih hr]

/-- A prefix of not-past results leaves the stored flag false and emits
nothing. -/
theorem runTicks_false_skip_pre (pre rest : List DurationData)
    (h : ∀ t ∈ pre, t.isPast = false) :
    runTicks false (pre ++ rest) = runTicks false rest := by
  induction pre with
  | nil => rfl
  | cons t ts ih =>
    have ht := h t (List.mem_cons_self t ts)
    have hts : ∀ x ∈ ts, x.isPast = false := fun x hx => h x (List.mem_cons_of_mem t hx)
    simp [runTicks, updateStringsStep, ht, ih hts]

/-- Claim C4: a sequence of `updateStrings` ticks that crosses from not-past
results to past results — starting from the constructor's `isPast = false` —
dispatches the `sessionexpired` event with payload `true` exactly once: on
the first past result, and never again while the results stay past. -/
theorem sessionexpired_fires_exactly_once (pre post : List DurationData)
    (hpre : ∀ t ∈ pre, t.isPast = false)
    (hpost : ∀ t ∈ post, t.isPast = true)
    (hne : post ≠ []) :
    countExpired (runTicks false (pre ++ post)).2 = 1 := by
  rw [runTicks_false_skip_pre pre post hpre]
  cases post with
  | nil => exact absurd rfl hne
  | cons p ps =>
    have hp := hpost p (List.mem_cons_self p ps)
    have hps : ∀ x ∈ ps, x.isPast = true := fun x hx => hpost x (List.mem_cons_of_mem p hx)
    have hrest := runTicks_true_all_past ps hps
    simp [runTicks, updateStringsStep, hp, hrest, countExpired]

/-- Witness for C4: one future tick followed by two past ticks of the same
target dispatch exactly one `sessionexpired true`. -/
theorem sessionexpired_fires_exactly_once_witness :
    (∀ t ∈ [getDurationData 0 (some 500000) "b" "a" "s" "e"], t.isPast = false) ∧
    (∀ t ∈ [getDurationData 1000000 (some 500000) "b" "a" "s" "e",
            getDurationData 2000000 (some 500000) "b" "a" "s" "e"], t.isPast = true) ∧
    countExpired (runTicks false
      ([getDurationData 0 (some 500000) "b" "a" "s" "e"] ++
       [getDurationData 1000000 (some 500000) "b" "a" "s" "e",
        getDurationData 2000000 (some 500000) "b" "a" "s" "e"])).2 = 1 :=
  ⟨by decide, by decide,
    sessionexpired_fires_exactly_once
      [getDurationData 0 (some 500000) "b" "a" "s" "e"]
      [getDurationData 1000000 (some 500000) "b" "a" "s" "e",
       getDurationData 2000000 (some 500000) "b" "a" "s" "e"]
      (by decide) (by decide) (by decide)⟩

/-- Claim C5 (code bug): `setEnd` never stores the supplied instant. For any
two successive clock readings and any parsed instant `p` strictly later than
the clock, the `_end` resulting from `setEnd` on a non-empty date-time
string is not `p`: line 355 passes `new Date()` (the current time) to
`setEndInner` instead of parsing `dateTimeStr`, so `_end` becomes the
current time (or the call warns and keeps the previous `_end`). -/
theorem setEnd_ignores_new_instant (t1 t2 p : Int) (_h1 : t1 ≤ t2) (hp : t1 < p) :
    setEnd t1 t2 "2099-01-01T00:00:00Z" none ≠ Except.ok (some p) := by
  unfold setEnd setEndInner
  rw [if_neg (by decide : ¬ jsTrim "2099-01-01T00:00:00Z" = "")]
  split_ifs with hlt
  · simp
  · simp
    omega

/-- Witness for C5 with both clock readings at 0 and the parsed instant at
1000. -/
theorem setEnd_ignores_new_instant_witness :
    (0 : Int) ≤ 0 ∧ (0 : Int) < 1000 ∧
    setEnd 0 0 "2099-01-01T00:00:00Z" none ≠ Except.ok (some 1000) :=
  ⟨by decide, by decide, setEnd_ignores_new_instant 0 0 1000 (by decide) (by decide)⟩

/-- Claim C8: with a keepalive threshold of at most 30 seconds
(`minKeepalive`), `setListeners` skips the interaction-listener loop
entirely, so neither the setup nor any trace of recorded interactions ever
produces a keepalive signal. -/
theorem no_keepalive_when_threshold_at_most_30 (st : KeepState)
    (h : st.keepalive ≤ minKeepalive) (now : Int) (ts : List Int) :
    (setListeners now st).setupEvents = [] ∧
    (processInteractions (setListeners now st).keepaliveListenerRegistered
        (setListeners now st).state ts).2 = [] := by
  have hlt : ¬ minKeepalive < st.keepalive := not_lt.mpr h
  constructor
  · unfold setListeners
    rw [if_neg hlt]
  · unfold setListeners
    rw [if_neg hlt]
    rfl

/-- Witness for C8 with threshold 20 and two interactions long after the
throttle window. -/
theorem no_keepalive_when_threshold_at_most_30_witness :
    kaStateBelowFloor.keepalive ≤ minKeepalive ∧
    ((setListeners 1000000 kaStateBelowFloor).setupEvents = [] ∧
     (processInteractions
        (setListeners 1000000 kaStateBelowFloor).keepaliveListenerRegistered
        (setListeners 1000000 kaStateBelowFloor).state [1000000, 2000000]).2 = []) :=
  ⟨by decide,
    no_keepalive_when_threshold_at_most_30 kaStateBelowFloor
      (by decide) 1000000 [1000000, 2000000]⟩

/-- Claim C9 (code bug): when a custom keepalive handler is configured and
the throttle window has elapsed, `updateKeepAlive` disables the handler and
emits the default `keepalive true` event even when the configured handler
would have succeeded (`some true`): the source calls
`this.keepaliveCallback()`, a setter-only property that reads as
`undefined`, so the call throws before the handler can run and the catch
block nulls `_keepaliveCallback`. -/
theorem keepalive_handler_disabled_despite_success (now : Int) (st : KeepState)
    (hcb : st.keepaliveCallback = some true)
    (hth : st.keepalive * 1000 < now - st.lastKeep) :
    (updateKeepAlive now st).1.keepaliveCallback = none ∧
    (updateKeepAlive now st).2 = [Event.keepalive true] := by
  simp [updateKeepAlive, hcb, hth]

/-- Witness for C9: threshold 60 s, last keepalive at 0, an interaction at
61000 ms, and a configured handler that would succeed. -/
theorem keepalive_handler_disabled_despite_success_witness :
    kaStateWithHandler.keepaliveCallback = some true ∧
    kaStateWithHandler.keepalive * 1000 < 61000 - kaStateWithHandler.lastKeep ∧
    ((updateKeepAlive 61000 kaStateWithHandler).1.keepaliveCallback = none ∧
     (updateKeepAlive 61000 kaStateWithHandler).2 = [Event.keepalive true]) :=
  ⟨by decide, by decide,
    keepalive_handler_disabled_despite_success 61000 kaStateWithHandler
      (by decide) (by decide)⟩
